import Mathlib

/-!
# gl-version: a verification development

Shallow embedding of `glx-tools/gl-version.c` (PyOpenGLng).  The program is a
sequence of calls into Xlib / GLX.  The external service is a parameter
(`World`) that fixes the answer of every external call; each function of the
program returns its C return value, the new value of the program's static
variables and the list of external calls it made, in order (`Event`).

Pointers are `Option Nat` (`none` is the null pointer), C strings are
`List Char` (the terminating NUL is implicit), `int` values are `Int`.
-/

namespace GLVersion

/-! ## Constants of the X11 / GLX headers used by the program -/

/-- Header constant `GLX_RENDER_TYPE` of `GL/glx.h`. -/
def GLX_RENDER_TYPE : Int := 0x8011
/-- Header constant `GLX_RGBA_BIT` of `GL/glx.h`. -/
def GLX_RGBA_BIT : Int := 0x1
/-- Header constant `GLX_RED_SIZE` of `GL/glx.h`. -/
def GLX_RED_SIZE : Int := 8
/-- Header constant `GLX_GREEN_SIZE` of `GL/glx.h`. -/
def GLX_GREEN_SIZE : Int := 9
/-- Header constant `GLX_BLUE_SIZE` of `GL/glx.h`. -/
def GLX_BLUE_SIZE : Int := 10
/-- Header constant `GLX_DOUBLEBUFFER` of `GL/glx.h`. -/
def GLX_DOUBLEBUFFER : Int := 5
/-- Header constant `None` of `X11/X.h`. -/
def XNone : Int := 0
/-- Header constant `True` of `X11/Xlib.h`. -/
def XTrue : Int := 1
/-- Header constant `False` of `X11/Xlib.h`. -/
def XFalse : Int := 0
/-- Header constant `GLX_CONTEXT_MAJOR_VERSION_ARB` of `GL/glxext.h`. -/
def GLX_CONTEXT_MAJOR_VERSION_ARB : Int := 0x2091
/-- Header constant `GLX_CONTEXT_MINOR_VERSION_ARB` of `GL/glxext.h`. -/
def GLX_CONTEXT_MINOR_VERSION_ARB : Int := 0x2092
/-- Header constant `GLX_CONTEXT_FLAGS_ARB` of `GL/glxext.h`. -/
def GLX_CONTEXT_FLAGS_ARB : Int := 0x2094
/-- Header constant `GLX_CONTEXT_PROFILE_MASK_ARB` of `GL/glxext.h`. -/
def GLX_CONTEXT_PROFILE_MASK_ARB : Int := 0x9126
/-- Header constant `GLX_CONTEXT_CORE_PROFILE_BIT_ARB` of `GL/glxext.h`. -/
def GLX_CONTEXT_CORE_PROFILE_BIT_ARB : Int := 0x1

/-! ## Data model -/

/-- The static table `gl_versions` (list of known OpenGL versions), with its
`{0, 0}` end-of-list entry. -/
def gl_versions : List (Int × Int) :=
  [(1, 0), (1, 1), (1, 2), (1, 3), (1, 4), (1, 5), (2, 0), (2, 1),
   (3, 0), (3, 1), (3, 2), (3, 3), (4, 0), (4, 1), (4, 2), (4, 3), (4, 4),
   (0, 0)]

/-- The macro `NUM_GL_VERSIONS`, that is `ELEMENTS(gl_versions)`. -/
def NUM_GL_VERSIONS : Nat := gl_versions.length

/-- Reading the table entry `gl_versions[i]`. -/
def versionAt (i : Nat) : Int × Int := gl_versions.getD i (0, 0)

/-- A non-null `GLXFBConfig *` returned by `glXChooseFBConfig`: the address of
the array and its entries (`first` is `configs[0]`). -/
structure FBConfigList where
  ptr : Nat
  first : Nat
  rest : List Nat
  deriving DecidableEq, Repr

/-- An argument of a `printf` call. -/
inductive PrintfArg where
  | int (n : Int)
  | str (s : String)
  deriving DecidableEq, Repr

/-- One external call made by the program, with its arguments and the value
the service returned.  A null pointer is `none`. -/
inductive Event where
  | XOpenDisplay (result : Bool)
  | XDisplayName
  | XCloseDisplay
  | glXChooseFBConfig (attribs : List Int) (result : Option FBConfigList)
  | glXQueryExtensionsString
  | glXGetProcAddress (result : Bool)
  | XSetErrorHandler
  | glXCreateContextAttribsARB (config : Nat) (attribs : List Int) (direct : Bool)
      (result : Option Nat)
  | glXCreateNewContext (config : Nat) (direct : Bool) (result : Option Nat)
  | glXIsDirect (ctx : Option Nat) (result : Bool)
  | glXDestroyContext (ctx : Option Nat)
  | glXGetVisualFromFBConfig (config : Nat) (result : Option Nat)
  | XFree (ptr : Nat)
  | XCreateColormap
  | XCreateWindow (result : Nat)
  | glXMakeCurrent (win : Nat) (ctx : Nat) (result : Bool)
  | glGetString
  | glGetError (result : Int)
  | XDestroyWindow (win : Nat)
  | XSync
  | printf (format : String) (args : List PrintfArg)
  | fprintf_stderr (format : String) (args : List PrintfArg)
  deriving DecidableEq, Repr

/-- What `glXCreateContextAttribsARB` did: the pointer it returned and whether
the X error handler installed around the call was invoked. -/
structure CreateOutcome where
  context : Option Nat
  xerror : Bool
  deriving DecidableEq, Repr

/-- The external service: the answer of every Xlib / GLX call the program
makes. -/
structure World where
  /-- whether `XOpenDisplay` returns a non-null display -/
  XOpenDisplay : Bool
  /-- the string returned by `XDisplayName` -/
  XDisplayName : String
  /-- answer of `glXChooseFBConfig` for an attribute list -/
  glXChooseFBConfig : List Int → Option FBConfigList
  /-- the string returned by `glXQueryExtensionsString` -/
  glXQueryExtensionsString : List Char
  /-- whether `glXGetProcAddress` returns a non-null function pointer -/
  glXGetProcAddress : Bool
  /-- answer of `glXCreateContextAttribsARB` for a configuration, an attribute
  list and the `direct` argument -/
  glXCreateContextAttribsARB : Nat → List Int → Bool → CreateOutcome
  /-- answer of `glXCreateNewContext` for a configuration and `direct` -/
  glXCreateNewContext : Nat → Bool → Option Nat
  /-- answer of `glXIsDirect` for a context pointer (null included) -/
  glXIsDirect : Option Nat → Bool
  /-- answer of `glXGetVisualFromFBConfig` for a configuration -/
  glXGetVisualFromFBConfig : Nat → Option Nat
  /-- the window id returned by `XCreateWindow` -/
  XCreateWindow : Nat
  /-- answer of `glXMakeCurrent` for a window and a context -/
  glXMakeCurrent : Nat → Nat → Bool
  /-- the string returned by `glGetString (GL_VERSION)` -/
  glGetString : String
  /-- the value returned by `glGetError` -/
  glGetError : Int

/-- The static variables of the program: `firstCall` and
`glXCreateContextAttribsARB_func` of `create_context_flags` (the latter as
"is non-null"), and the global `CreateContextErrorFlag`. -/
structure Statics where
  firstCall : Bool
  glXCreateContextAttribsARB_func : Bool
  CreateContextErrorFlag : Bool
  deriving DecidableEq, Repr

/-- The static variables at program start. -/
def Statics.init : Statics := ⟨true, false, false⟩

/-- Result of running a function of the program: its return value, the static
variables afterwards and the external calls it made, in order. -/
structure Run (α : Type) where
  val : α
  st : Statics
  events : List Event

/-! ## The program -/

/-- C library `strstr`: the offset of the first occurrence of `needle` in
`haystack`, or `none` (null) when there is none. -/
def strstr : List Char → List Char → Option Nat
  | [], needle => if needle.isEmpty then some 0 else none
  | c :: hay, needle =>
    if needle.isPrefixOf (c :: hay) then some 0
    else (strstr hay needle).map (fun p => p + 1)

/-- Reading `s[i]` in a C string: the character code, `0` at the terminator. -/
def charAt (s : List Char) (i : Nat) : Nat :=
  match s.get? i with
  | some c => c.toNat
  | none => 0

/-- Source function `extension_supported`. -/
def extension_supported (ext extensionsList : List Char) : Int :=
  match strstr extensionsList ext with
  | some p =>
    let extLen := ext.length
    if charAt extensionsList (p + extLen) = 0 ∨ charAt extensionsList (p + extLen) = ' '.toNat then 1
    else 0
  | none => 0

/-- Local array `fbAttribSingle` of `choose_fb_config`. -/
def fbAttribSingle : List Int :=
  [GLX_RENDER_TYPE, GLX_RGBA_BIT, GLX_RED_SIZE, 1, GLX_GREEN_SIZE, 1,
   GLX_BLUE_SIZE, 1, GLX_DOUBLEBUFFER, XFalse, XNone]

/-- Local array `fbAttribDouble` of `choose_fb_config`. -/
def fbAttribDouble : List Int :=
  [GLX_RENDER_TYPE, GLX_RGBA_BIT, GLX_RED_SIZE, 1, GLX_GREEN_SIZE, 1,
   GLX_BLUE_SIZE, 1, GLX_DOUBLEBUFFER, XTrue, XNone]

/-- Source function `choose_fb_config`. -/
def choose_fb_config (w : World) (st : Statics) : Run (Option FBConfigList) :=
  let configs := w.glXChooseFBConfig fbAttribSingle
  let ev1 := [Event.glXChooseFBConfig fbAttribSingle configs]
  match configs with
  | some l => ⟨some l, st, ev1⟩
  | none =>
    let configs2 := w.glXChooseFBConfig fbAttribDouble
    ⟨configs2, st, ev1 ++ [Event.glXChooseFBConfig fbAttribDouble configs2]⟩

/-- Source function `create_context_error_handler`. -/
def create_context_error_handler (st : Statics) : Statics :=
  { st with CreateContextErrorFlag := true }

/-- The attribute array `attribs` filled in by `create_context_flags`. -/
def buildAttribs (major minor contextFlags profileMask : Int) : List Int :=
  (if major ≠ 0 then
    [GLX_CONTEXT_MAJOR_VERSION_ARB, major, GLX_CONTEXT_MINOR_VERSION_ARB, minor]
   else []) ++
  (if contextFlags ≠ 0 then [GLX_CONTEXT_FLAGS_ARB, contextFlags] else []) ++
  (if profileMask ≠ 0 then [GLX_CONTEXT_PROFILE_MASK_ARB, profileMask] else []) ++
  [0]

/-- The name looked up in the GLX extension string. -/
def profileExtension : List Char := "GLX_ARB_create_context_profile".toList

/-- First part of `create_context_flags`: the `if (firstCall)` block. -/
def firstCallBlock (w : World) (st : Statics) : Statics × List Event :=
  if st.firstCall then
    let glxExt := w.glXQueryExtensionsString
    if extension_supported profileExtension glxExt ≠ 0 then
      (⟨false, w.glXGetProcAddress, st.CreateContextErrorFlag⟩,
       [Event.glXQueryExtensionsString, Event.glXGetProcAddress w.glXGetProcAddress])
    else
      (⟨false, st.glXCreateContextAttribsARB_func, st.CreateContextErrorFlag⟩,
       [Event.glXQueryExtensionsString])
  else (st, [])

/-- Source function `create_context_flags` (with `GLX_ARB_create_context` and
`GLX_ARB_create_context_profile` defined by the headers). -/
def create_context_flags (w : World) (fbconfig : Nat)
    (major minor contextFlags profileMask : Int) (direct : Bool) (st : Statics) :
    Run (Option Nat) :=
  let st1 := (firstCallBlock w st).1
  let ev1 := (firstCallBlock w st).2
  if st1.glXCreateContextAttribsARB_func = false then ⟨none, st1, ev1⟩
  else
    let attribs := buildAttribs major minor contextFlags profileMask
    -- install X error handler, clear the flag
    let st2 : Statics := { st1 with CreateContextErrorFlag := false }
    -- try creating context
    let r := w.glXCreateContextAttribsARB fbconfig attribs direct
    let st3 := if r.xerror then create_context_error_handler st2 else st2
    -- restore error handler
    let ev2 := ev1 ++ [Event.XSetErrorHandler,
      Event.glXCreateContextAttribsARB fbconfig attribs direct r.context, Event.XSetErrorHandler]
    let context : Option Nat := if st3.CreateContextErrorFlag then none else r.context
    if direct then
      let d := w.glXIsDirect context
      if d = false then
        ⟨none, st3, ev2 ++ [Event.glXIsDirect context d, Event.glXDestroyContext context]⟩
      else ⟨context, st3, ev2 ++ [Event.glXIsDirect context d]⟩
    else ⟨context, st3, ev2⟩

/-- The `for (i = ...; i > 0; i--)` loop of `create_context_with_config`,
started at index `i`. -/
def probeLoop (w : World) (config : Nat) (direct : Bool) : Nat → Statics → Run (Option Nat)
  | 0, st => ⟨none, st, []⟩
  | i + 1, st =>
    let v := versionAt (i + 1)
    if v.1 = 3 ∧ v.2 = 0 then ⟨none, st, []⟩
    else
      let ev0 := [Event.printf "Try to create a context for version %u.%u\n"
        [PrintfArg.int v.1, PrintfArg.int v.2]]
      let r := create_context_flags w config v.1 v.2 0 GLX_CONTEXT_CORE_PROFILE_BIT_ARB direct st
      match r.val with
      | some c => ⟨some c, r.st, ev0 ++ r.events ++ [Event.printf "  Context created\n" []]⟩
      | none =>
        let r2 := probeLoop w config direct i r.st
        ⟨r2.val, r2.st, ev0 ++ r.events ++ r2.events⟩

/-- Source function `create_context_with_config`. -/
def create_context_with_config (w : World) (config : Nat) (coreProfile direct : Bool)
    (st : Statics) : Run (Option Nat) :=
  if coreProfile then
    probeLoop w config direct (NUM_GL_VERSIONS - 2) st
  else
    let ctx := w.glXCreateNewContext config direct
    let ev := [Event.glXCreateNewContext config direct ctx]
    match ctx with
    | some c =>
      if direct then
        let d := w.glXIsDirect (some c)
        if d = false then
          ⟨none, st, ev ++ [Event.glXIsDirect (some c) d, Event.glXDestroyContext (some c)]⟩
        else ⟨some c, st, ev ++ [Event.glXIsDirect (some c) d]⟩
      else ⟨some c, st, ev⟩
    | none => ⟨none, st, ev⟩

/-- Source function `CheckError`. -/
def CheckError (w : World) (line : Int) : List Event :=
  let n := w.glGetError
  [Event.glGetError n] ++
  (if n ≠ 0 then [Event.printf "Warning: GL error 0x%x at line %d\n"
      [PrintfArg.int n, PrintfArg.int line]] else [])

/-- Second half of `print_version`: from the creation of the window to the
final `return True`. -/
def bindAndReport (w : World) (coreProfile : Bool) (ctx visinfo : Nat) : List Event :=
  let oglstring := if coreProfile then "OpenGL core profile" else "OpenGL"
  let win := w.XCreateWindow
  let b := w.glXMakeCurrent win ctx
  [Event.XCreateColormap, Event.XCreateWindow win, Event.glXMakeCurrent win ctx b] ++
  (if b then
    [Event.glGetString] ++ CheckError w 336 ++
    [Event.printf "%s version string: %s\n"
      [PrintfArg.str oglstring, PrintfArg.str w.glGetString]]
   else [Event.fprintf_stderr "Error: glXMakeCurrent failed\n" []]) ++
  [Event.glXDestroyContext (some ctx), Event.XFree visinfo, Event.XDestroyWindow win,
   Event.XSync]

/-- Source function `print_version`. -/
def print_version (w : World) (allowDirect coreProfile : Bool) (st : Statics) : Run Bool :=
  let fb := choose_fb_config w st
  -- the `if (fbconfigs)` block: sets `ctx` and `visinfo`
  let blk : Run (Option Nat × Option Nat) :=
    match fb.val with
    | some l =>
      let r := create_context_with_config w l.first coreProfile allowDirect fb.st
      let visinfo := w.glXGetVisualFromFBConfig l.first
      ⟨(r.val, visinfo), r.st,
        fb.events ++ r.events ++ [Event.glXGetVisualFromFBConfig l.first visinfo, Event.XFree l.ptr]⟩
    | none => ⟨(none, none), fb.st, fb.events⟩
  match blk.val.2 with
  | none =>
    ⟨false, blk.st,
      blk.events ++ [Event.fprintf_stderr "Error: couldn't find RGB GLX visual or fbconfig\n" []]⟩
  | some visinfo =>
    match blk.val.1 with
    | none =>
      ⟨false, blk.st,
        blk.events ++
        (if coreProfile = false then [Event.fprintf_stderr "Error: glXCreateContext failed\n" []]
         else []) ++
        [Event.XFree visinfo]⟩
    | some ctx =>
      ⟨true, blk.st, blk.events ++ bindAndReport w coreProfile ctx visinfo⟩

/-- Source function `main`: the exit code and the trace of external calls. -/
def main (w : World) : Run Int :=
  if w.XOpenDisplay = false then
    ⟨-1, Statics.init,
      [Event.XOpenDisplay false, Event.XDisplayName,
       Event.fprintf_stderr "Error: unable to open display %s\n"
         [PrintfArg.str w.XDisplayName]]⟩
  else
    let allowDirect := true
    let Coreprofile := true
    let r := print_version w allowDirect Coreprofile Statics.init
    ⟨0, r.st, [Event.XOpenDisplay true] ++ r.events ++ [Event.XCloseDisplay]⟩

/-! ## Vocabulary of the properties -/

/-- The names of a space-separated list, as the words between the spaces. -/
def splitNames : List Char → List (List Char)
  | [] => [[]]
  | c :: cs =>
    if c = ' ' then [] :: splitNames cs
    else
      match splitNames cs with
      | [] => [[c]]
      | n :: ns => (c :: n) :: ns

/-- The attribute list the probe passes for a core-profile context of a
version. -/
def coreAttribs (major minor : Int) : List Int :=
  buildAttribs major minor 0 GLX_CONTEXT_CORE_PROFILE_BIT_ARB

/-- Strict order on versions: `a` is older than `b`. -/
def versionLT (a b : Int × Int) : Prop := a.1 < b.1 ∨ (a.1 = b.1 ∧ a.2 < b.2)

instance (a b : Int × Int) : Decidable (versionLT a b) := by
  unfold versionLT; infer_instance

/-- A version is at or above the floor 3.0. -/
def atLeast30 (v : Int × Int) : Prop := v = (3, 0) ∨ versionLT (3, 0) v

instance (v : Int × Int) : Decidable (atLeast30 v) := by
  unfold atLeast30; infer_instance

/-- The program holds a non-null `glXCreateContextAttribsARB_func` once the
`if (firstCall)` block has run from the static variables `st`. -/
def funcAvailable (w : World) (st : Statics) : Prop :=
  (firstCallBlock w st).1.glXCreateContextAttribsARB_func = true

instance (w : World) (st : Statics) : Decidable (funcAvailable w st) := by
  unfold funcAvailable; infer_instance

/-- The driver creates a core-profile context of the given version: the
creation call returns a non-null context without an X error and, when a
direct context is requested, `glXIsDirect` accepts it. -/
def driverCreates (w : World) (config : Nat) (v : Int × Int) (direct : Bool) : Prop :=
  ∃ c, w.glXCreateContextAttribsARB config (coreAttribs v.1 v.2) direct = ⟨some c, false⟩ ∧
    (direct = true → w.glXIsDirect (some c) = true)

/-- No core-profile context can be created at any listed version at or above
3.0, for configuration `cfg` and from the static variables `st`. -/
def noCoreContext (w : World) (cfg : Nat) (direct : Bool) (st : Statics) : Prop :=
  ∀ v ∈ gl_versions, atLeast30 v → ¬ (funcAvailable w st ∧ driverCreates w cfg v direct)

/-- A resource the program can hold. -/
inductive Resource where
  | display
  | memory (ptr : Nat)
  | context (ctx : Nat)
  | window (win : Nat)
  deriving DecidableEq, Repr

/-- The resource a call hands to the program, if any. -/
def Event.acquires : Event → Option Resource
  | .XOpenDisplay true => some .display
  | .glXChooseFBConfig _ (some l) => some (.memory l.ptr)
  | .glXGetVisualFromFBConfig _ (some p) => some (.memory p)
  | .glXCreateContextAttribsARB _ _ _ (some c) => some (.context c)
  | .glXCreateNewContext _ _ (some c) => some (.context c)
  | .XCreateWindow win => some (.window win)
  | _ => none

/-- The resource a call gives back, if any. -/
def Event.releases : Event → Option Resource
  | .XCloseDisplay => some .display
  | .XFree p => some (.memory p)
  | .glXDestroyContext (some c) => some (.context c)
  | .XDestroyWindow win => some (.window win)
  | _ => none

/-- How many times a trace acquires a resource. -/
def acquireCount (t : List Event) (r : Resource) : Nat :=
  t.countP (fun e => decide (e.acquires = some r))

/-- How many times a trace releases a resource. -/
def releaseCount (t : List Event) (r : Resource) : Nat :=
  t.countP (fun e => decide (e.releases = some r))

/-- The attribute lists of the `glXCreateContextAttribsARB` calls of a trace,
in order. -/
def createRequests (t : List Event) : List (List Int) :=
  t.filterMap (fun e =>
    match e with
    | .glXCreateContextAttribsARB _ a _ _ => some a
    | _ => none)

/-- A listed version strictly above 3.0, as the attribute list of its
core-profile request. -/
def probedVersion (a : List Int) : Prop :=
  ∃ v ∈ gl_versions, versionLT (3, 0) v ∧ a = coreAttribs v.1 v.2

instance (a : List Int) : Decidable (probedVersion a) := by
  unfold probedVersion; infer_instance

/-- Whether a call is one of those the version probe makes, its creation
requests being restricted to the attribute lists `P`. -/
def Event.probeCall (P : List Int → Prop) [DecidablePred P] : Event → Bool
  | .glXQueryExtensionsString => true
  | .glXGetProcAddress _ => true
  | .XSetErrorHandler => true
  | .glXIsDirect _ _ => true
  | .glXDestroyContext _ => true
  | .printf _ _ => true
  | .glXCreateContextAttribsARB _ a _ _ => decide (P a)
  | _ => false

/-- Whether a call is `glXCreateNewContext`. -/
def Event.isCreateNewContext : Event → Bool
  | .glXCreateNewContext _ _ _ => true
  | _ => false

/-- Whether a call is `XCreateWindow`. -/
def Event.isCreateWindow : Event → Bool
  | .XCreateWindow _ => true
  | _ => false

/-- Whether a call is `glXMakeCurrent`. -/
def Event.isMakeCurrent : Event → Bool
  | .glXMakeCurrent _ _ _ => true
  | _ => false

/-! ## Concrete services -/

/-- A service with a display, both kinds of configuration and the profile
extension; creation, directness, visual and binding are given. -/
def mkWorld (create : List Int → CreateOutcome) (isDirect : Option Nat → Bool)
    (visual : Option Nat) (bind : Bool) : World where
  XOpenDisplay := true
  XDisplayName := ":0"
  glXChooseFBConfig := fun a =>
    if a = fbAttribSingle then some ⟨100, 7, []⟩
    else if a = fbAttribDouble then some ⟨200, 8, []⟩ else none
  glXQueryExtensionsString := "GLX_ARB_create_context GLX_ARB_create_context_profile".toList
  glXGetProcAddress := true
  glXCreateContextAttribsARB := fun _ a _ => create a
  glXCreateNewContext := fun _ _ => some 1
  glXIsDirect := isDirect
  glXGetVisualFromFBConfig := fun _ => visual
  XCreateWindow := 400
  glXMakeCurrent := fun _ _ => bind
  glGetString := "4.4.0"
  glGetError := 0

/-- Creation succeeds, with context `c`, exactly for one version. -/
def createOnly (major minor : Int) (c : Nat) : List Int → CreateOutcome :=
  fun a => if a = coreAttribs major minor then ⟨some c, false⟩ else ⟨none, false⟩

/-- Every step succeeds; the driver creates a 4.4 core context. -/
def worldFull : World := mkWorld (createOnly 4 4 44) (fun c => c.isSome) (some 300) true

/-- As `worldFull`, but `glXMakeCurrent` fails. -/
def worldBindFails : World := mkWorld (createOnly 4 4 44) (fun c => c.isSome) (some 300) false

/-- As `worldFull`, but `glXGetVisualFromFBConfig` returns null. -/
def worldNoVisual : World := mkWorld (createOnly 4 4 44) (fun c => c.isSome) none true

/-- The driver creates no core context at all (every creation call returns
null). -/
def worldNoCore : World := mkWorld (fun _ => ⟨none, false⟩) (fun c => c.isSome) (some 300) true

/-- The creation call returns context 5 while the X error handler fires. -/
def worldXError : World := mkWorld (fun _ => ⟨some 5, true⟩) (fun c => c.isSome) (some 300) true

/-- Creation at 4.4 gives context 44, which is not direct; creation at 4.3
gives context 43, which is. -/
def worldNonDirect44 : World :=
  mkWorld (fun a => if a = coreAttribs 4 4 then ⟨some 44, false⟩
      else if a = coreAttribs 4 3 then ⟨some 43, false⟩ else ⟨none, false⟩)
    (fun c => decide (c = some 43)) (some 300) true

/-- Creation at 3.1 gives context 31, which is not direct; creation at 3.0
gives context 30, which is; no other version is created. -/
def worldNonDirect31 : World :=
  mkWorld (fun a => if a = coreAttribs 3 1 then ⟨some 31, false⟩
      else if a = coreAttribs 3 0 then ⟨some 30, false⟩ else ⟨none, false⟩)
    (fun c => decide (c = some 30)) (some 300) true

/-- As `worldFull`, but the display cannot be opened. -/
def worldNoDisplay : World := { worldFull with XOpenDisplay := false }

/-! ## Lemmas on the version probe -/

theorem firstCallBlock_events (w : World) (st : Statics) (P : List Int → Prop) [DecidablePred P] :
    (firstCallBlock w st).2.all (Event.probeCall P) = true := by
  unfold firstCallBlock
  by_cases h1 : st.firstCall = true <;>
    by_cases h2 : extension_supported profileExtension w.glXQueryExtensionsString = 0 <;>
    simp [-List.all_eq_true, Event.probeCall, h1, h2]

/-- Every call of `create_context_flags` is a probe call, its creation request
being the attribute list built from the arguments. -/
theorem create_context_flags_events (w : World) (cfg : Nat) (M m f p : Int) (direct : Bool)
    (st : Statics) (P : List Int → Prop) [DecidablePred P] (hP : P (buildAttribs M m f p)) :
    (create_context_flags w cfg M m f p direct st).events.all (Event.probeCall P) = true := by
  unfold create_context_flags
  have hfc := firstCallBlock_events w st P
  generalize firstCallBlock w st = fc at hfc
  obtain ⟨⟨fcall, fn, ef⟩, evs⟩ := fc
  dsimp only at hfc ⊢
  split_ifs <;> simp [-List.all_eq_true, Event.probeCall, hfc, hP]

/-- A probe call is none of `glXCreateNewContext`, `XCreateWindow`,
`glXMakeCurrent`, and its creation request satisfies the restriction. -/
theorem probeCall_spec (P : List Int → Prop) [DecidablePred P] (e : Event)
    (h : e.probeCall P = true) :
    e.isCreateNewContext = false ∧ e.isCreateWindow = false ∧ e.isMakeCurrent = false ∧
    ∀ cfg a d r, e = Event.glXCreateContextAttribsARB cfg a d r → P a := by
  refine ⟨?_, ?_, ?_, ?_⟩
  · cases e <;> simp_all [Event.probeCall, Event.isCreateNewContext]
  · cases e <;> simp_all [Event.probeCall, Event.isCreateWindow]
  · cases e <;> simp_all [Event.probeCall, Event.isMakeCurrent]
  · intro cfg a d r he
    subst he
    simpa [Event.probeCall] using h

/-- The table entries of index 9 to 16 are the listed versions above 3.0. -/
theorem versionAt_probed (i : Nat) (h8 : 8 < i) (h16 : i ≤ 16) :
    versionAt i ∈ gl_versions ∧ versionLT (3, 0) (versionAt i) ∧
    ¬ ((versionAt i).1 = 3 ∧ (versionAt i).2 = 0) := by
  interval_cases i <;> decide

/-- Started at an index from 8 to 16, the loop makes only probe calls, and
requests only listed versions above 3.0. -/
theorem probeLoop_events (w : World) (cfg : Nat) (direct : Bool) (i : Nat) :
    8 ≤ i → i ≤ 16 →
    ∀ st, (probeLoop w cfg direct i st).events.all (Event.probeCall probedVersion) = true := by
  induction i with
  | zero => intro h; omega
  | succ i ih =>
    intro h8 h16 st
    unfold probeLoop
    by_cases h : 8 < i + 1
    · obtain ⟨hm, hlt, hne⟩ := versionAt_probed (i + 1) h h16
      have hP : probedVersion (buildAttribs (versionAt (i + 1)).1
          (versionAt (i + 1)).2 0 GLX_CONTEXT_CORE_PROFILE_BIT_ARB) :=
        ⟨_, hm, hlt, rfl⟩
      have hc := create_context_flags_events w cfg (versionAt (i + 1)).1
          (versionAt (i + 1)).2 0 GLX_CONTEXT_CORE_PROFILE_BIT_ARB direct st
          probedVersion hP
      have ih2 := ih (by omega) (by omega)
      simp only [hne, if_false]
      split <;> simp [-List.all_eq_true, Event.probeCall, hc, ih2]
    · have h8' : i + 1 = 8 := by omega
      have hv : (versionAt (i + 1)).1 = 3 ∧ (versionAt (i + 1)).2 = 0 := by
        rw [h8']; decide
      simp [hv]

/-- When `create_context_flags` returns a context, the function pointer was
available, the creation call returned that context without an X error, and
the context is direct if a direct one was requested. -/
theorem create_context_flags_some (w : World) (cfg : Nat) (M m f p : Int) (direct : Bool)
    (st : Statics) (c : Nat)
    (h : (create_context_flags w cfg M m f p direct st).val = some c) :
    funcAvailable w st ∧
    w.glXCreateContextAttribsARB cfg (buildAttribs M m f p) direct = ⟨some c, false⟩ ∧
    (direct = true → w.glXIsDirect (some c) = true) := by
  unfold create_context_flags at h
  unfold funcAvailable
  rcases hr : w.glXCreateContextAttribsARB cfg (buildAttribs M m f p) direct with ⟨ctx, xe⟩
  simp only [hr] at h
  cases hf : (firstCallBlock w st).1.glXCreateContextAttribsARB_func
  · simp [hf] at h
  · cases xe <;> cases direct <;> simp [hf, create_context_error_handler] at h ⊢
    · exact h
    · split at h
      · simp at h
      · rename_i hd
        simp at h
        subst h
        simpa using hd
    · split at h <;> simp at h

/-- With the function pointer available, the creation call is in the trace of
`create_context_flags`. -/
theorem create_context_flags_mem (w : World) (cfg : Nat) (M m f p : Int) (direct : Bool)
    (st : Statics) (hf : funcAvailable w st) :
    Event.glXCreateContextAttribsARB cfg (buildAttribs M m f p) direct
      (w.glXCreateContextAttribsARB cfg (buildAttribs M m f p) direct).context ∈
      (create_context_flags w cfg M m f p direct st).events := by
  unfold funcAvailable at hf
  unfold create_context_flags
  simp only [hf, Bool.true_eq_false, if_false]
  split_ifs <;> simp

/-- After the `if (firstCall)` block, `firstCall` is false. -/
theorem firstCallBlock_idem (w : World) (st : Statics) :
    (firstCallBlock w st).1.firstCall = false := by
  unfold firstCallBlock
  by_cases h1 : st.firstCall = true <;>
    by_cases h2 : extension_supported profileExtension w.glXQueryExtensionsString = 0 <;>
    simp [h1, h2]

/-- With `firstCall` false, the `if (firstCall)` block does nothing. -/
theorem firstCallBlock_done (w : World) (st : Statics) (h : st.firstCall = false) :
    firstCallBlock w st = (st, []) := by
  unfold firstCallBlock
  simp [h]

/-- The static variables after `create_context_flags`. -/
theorem create_context_flags_st (w : World) (cfg : Nat) (M m f p : Int)
    (direct : Bool) (st : Statics) :
    (create_context_flags w cfg M m f p direct st).st.firstCall = false ∧
    (create_context_flags w cfg M m f p direct st).st.glXCreateContextAttribsARB_func =
      (firstCallBlock w st).1.glXCreateContextAttribsARB_func := by
  have h0 := firstCallBlock_idem w st
  unfold create_context_flags
  generalize firstCallBlock w st = fc at h0
  obtain ⟨⟨fcall, fn, ef⟩, evs⟩ := fc
  dsimp only at h0 ⊢
  split_ifs <;> simp_all [create_context_error_handler]

/-- Availability of the function pointer is the same on every later call. -/
theorem create_context_flags_funcAvailable (w : World) (cfg : Nat) (M m f p : Int)
    (direct : Bool) (st : Statics) :
    funcAvailable w (create_context_flags w cfg M m f p direct st).st ↔ funcAvailable w st := by
  obtain ⟨h1, h2⟩ := create_context_flags_st w cfg M m f p direct st
  unfold funcAvailable
  rw [firstCallBlock_done w _ h1, h2]

/-- The run of `create_context_flags` on a created context that is not direct. -/
theorem create_context_flags_nondirect (w : World) (cfg : Nat) (M m f p : Int)
    (st : Statics) (c : Nat) (hf : funcAvailable w st)
    (hc : w.glXCreateContextAttribsARB cfg (buildAttribs M m f p) true = ⟨some c, false⟩)
    (hd : w.glXIsDirect (some c) = false) :
    (create_context_flags w cfg M m f p true st).val = none ∧
    (create_context_flags w cfg M m f p true st).events =
      (firstCallBlock w st).2 ++
      [Event.XSetErrorHandler,
       Event.glXCreateContextAttribsARB cfg (buildAttribs M m f p) true (some c),
       Event.XSetErrorHandler, Event.glXIsDirect (some c) false,
       Event.glXDestroyContext (some c)] := by
  unfold funcAvailable at hf
  unfold create_context_flags
  simp [hf, hc, hd]

/-- A context returned by the loop is direct when a direct one was requested,
and was returned by a creation call of the trace. -/
theorem probeLoop_some (w : World) (cfg : Nat) (direct : Bool) (c : Nat) (i : Nat) :
    ∀ st, (probeLoop w cfg direct i st).val = some c →
      (direct = true → w.glXIsDirect (some c) = true) ∧
      ∃ a, Event.glXCreateContextAttribsARB cfg a direct (some c) ∈
        (probeLoop w cfg direct i st).events := by
  induction i with
  | zero => intro st h; simp [probeLoop] at h
  | succ i ih =>
    intro st h
    unfold probeLoop at h ⊢
    by_cases hv : (versionAt (i + 1)).1 = 3 ∧ (versionAt (i + 1)).2 = 0
    · simp [hv] at h
    · simp only [hv, if_false] at h ⊢
      cases hr : (create_context_flags w cfg (versionAt (i + 1)).1 (versionAt (i + 1)).2 0
          GLX_CONTEXT_CORE_PROFILE_BIT_ARB direct st).val with
      | some c' =>
        simp only [hr] at h ⊢
        simp at h
        subst h
        obtain ⟨hf, hc, hd⟩ := create_context_flags_some _ _ _ _ _ _ _ _ _ hr
        have hm := create_context_flags_mem w cfg (versionAt (i + 1)).1 (versionAt (i + 1)).2 0
          GLX_CONTEXT_CORE_PROFILE_BIT_ARB direct st hf
        rw [hc] at hm
        refine ⟨hd, buildAttribs (versionAt (i + 1)).1 (versionAt (i + 1)).2 0
          GLX_CONTEXT_CORE_PROFILE_BIT_ARB, ?_⟩
        simp only [List.mem_append]
        exact Or.inl (Or.inr hm)
      | none =>
        simp only [hr] at h ⊢
        obtain ⟨hd, a, hm⟩ := ih _ h
        refine ⟨hd, a, ?_⟩
        simp only [List.mem_append]
        exact Or.inr hm

/-- When no core context can be created, the loop returns null. -/
theorem probeLoop_none (w : World) (cfg : Nat) (direct : Bool) (i : Nat) :
    8 ≤ i → i ≤ 16 → ∀ st, noCoreContext w cfg direct st →
    (probeLoop w cfg direct i st).val = none := by
  induction i with
  | zero => intro h; omega
  | succ i ih =>
    intro h8 h16 st hno
    unfold probeLoop
    by_cases h : 8 < i + 1
    · obtain ⟨hm, hlt, hne⟩ := versionAt_probed (i + 1) h h16
      simp only [hne, if_false]
      cases hr : (create_context_flags w cfg (versionAt (i + 1)).1 (versionAt (i + 1)).2 0
          GLX_CONTEXT_CORE_PROFILE_BIT_ARB direct st).val with
      | some c =>
        exfalso
        obtain ⟨hf, hc, hd⟩ := create_context_flags_some _ _ _ _ _ _ _ _ _ hr
        exact hno _ hm (Or.inr hlt) ⟨hf, c, hc, hd⟩
      | none =>
        simp only
        apply ih (by omega) (by omega)
        intro v hv h30 hcon
        exact hno v hv h30 ⟨(create_context_flags_funcAvailable _ _ _ _ _ _ _ _).1 hcon.1, hcon.2⟩
    · have h8' : i + 1 = 8 := by omega
      have hv : (versionAt (i + 1)).1 = 3 ∧ (versionAt (i + 1)).2 = 0 := by
        rw [h8']; decide
      simp [hv]

/-- The function `choose_fb_config` leaves the static variables unchanged. -/
theorem choose_fb_config_st (w : World) (st : Statics) : (choose_fb_config w st).st = st := by
  unfold choose_fb_config
  cases w.glXChooseFBConfig fbAttribSingle <;> rfl

/-- The function `choose_fb_config` creates no context, no window and binds
nothing. -/
theorem choose_fb_config_events (w : World) (st : Statics) :
    ∀ e ∈ (choose_fb_config w st).events,
      e.isCreateNewContext = false ∧ e.isCreateWindow = false ∧ e.isMakeCurrent = false := by
  unfold choose_fb_config
  cases w.glXChooseFBConfig fbAttribSingle <;>
    simp [Event.isCreateNewContext, Event.isCreateWindow, Event.isMakeCurrent]

/-- A creation request of a trace comes from a creation call of the trace. -/
theorem mem_createRequests (t : List Event) (a : List Int) (h : a ∈ createRequests t) :
    ∃ cfg d r, Event.glXCreateContextAttribsARB cfg a d r ∈ t := by
  unfold createRequests at h
  rw [List.mem_filterMap] at h
  obtain ⟨e, he, hea⟩ := h
  cases e <;> simp at hea
  subst hea
  exact ⟨_, _, _, he⟩

/-- The `if (firstCall)` block releases nothing. -/
theorem firstCallBlock_releaseCount (w : World) (st : Statics) (r : Resource) :
    releaseCount (firstCallBlock w st).2 r = 0 := by
  unfold firstCallBlock releaseCount
  by_cases h1 : st.firstCall = true <;>
    by_cases h2 : extension_supported profileExtension w.glXQueryExtensionsString = 0 <;>
    simp [h1, h2, Event.releases]

/-- The `if (firstCall)` block makes no creation request. -/
theorem firstCallBlock_createRequests (w : World) (st : Statics) :
    createRequests (firstCallBlock w st).2 = [] := by
  unfold firstCallBlock createRequests
  by_cases h1 : st.firstCall = true <;>
    by_cases h2 : extension_supported profileExtension w.glXQueryExtensionsString = 0 <;>
    simp [h1, h2]

/-- Creation requests of a concatenated trace. -/
theorem createRequests_append (s t : List Event) :
    createRequests (s ++ t) = createRequests s ++ createRequests t := by
  unfold createRequests
  exact List.filterMap_append _ _ _

/-- With the function pointer available, `create_context_flags` makes exactly
one creation request. -/
theorem create_context_flags_createRequests (w : World) (cfg : Nat) (M m f p : Int)
    (direct : Bool) (st : Statics) (hf : funcAvailable w st) :
    createRequests (create_context_flags w cfg M m f p direct st).events =
      [buildAttribs M m f p] := by
  unfold funcAvailable at hf
  have h0 := firstCallBlock_createRequests w st
  unfold create_context_flags
  simp only [hf, Bool.true_eq_false, if_false]
  split_ifs <;> simp only [createRequests_append, h0] <;> rfl

/-- The loop started at an entry above 3.0 begins with the attempt at that entry. -/
theorem probeLoop_starts_with_attempt (w : World) (cfg : Nat) (direct : Bool) (n : Nat)
    (h8 : 8 < n) (h16 : n ≤ 16) (st : Statics) :
    ∃ rest, (probeLoop w cfg direct n st).events =
      [Event.printf "Try to create a context for version %u.%u\n"
        [PrintfArg.int (versionAt n).1, PrintfArg.int (versionAt n).2]] ++
      (create_context_flags w cfg (versionAt n).1 (versionAt n).2 0
        GLX_CONTEXT_CORE_PROFILE_BIT_ARB direct st).events ++ rest := by
  obtain ⟨_, _, hne⟩ := versionAt_probed n h8 h16
  obtain ⟨j, rfl⟩ : ∃ j, n = j + 1 := ⟨n - 1, by omega⟩
  rw [probeLoop]
  simp only [hne, if_false]
  split
  · exact ⟨_, rfl⟩
  · exact ⟨_, rfl⟩

/-- After a non-direct attempt at the table entry `i`: when `i` is above the
3.1 entry the loop next attempts the entry `i - 1`; when `i` is the 3.1 entry
the loop returns null with no further request. -/
theorem nondirect_attempt_next_step (w : World) (cfg : Nat) (st : Statics) (i c : Nat)
    (h8 : 8 < i) (h16 : i ≤ 16) (hf : funcAvailable w st)
    (hc : w.glXCreateContextAttribsARB cfg (coreAttribs (versionAt i).1 (versionAt i).2) true =
      ⟨some c, false⟩)
    (hd : w.glXIsDirect (some c) = false) :
    (9 < i → ∃ rest, (probeLoop w cfg true i st).events =
      [Event.printf "Try to create a context for version %u.%u\n"
        [PrintfArg.int (versionAt i).1, PrintfArg.int (versionAt i).2]] ++
      (create_context_flags w cfg (versionAt i).1 (versionAt i).2 0
        GLX_CONTEXT_CORE_PROFILE_BIT_ARB true st).events ++
      [Event.printf "Try to create a context for version %u.%u\n"
        [PrintfArg.int (versionAt (i - 1)).1, PrintfArg.int (versionAt (i - 1)).2]] ++
      (create_context_flags w cfg (versionAt (i - 1)).1 (versionAt (i - 1)).2 0
        GLX_CONTEXT_CORE_PROFILE_BIT_ARB true
        (create_context_flags w cfg (versionAt i).1 (versionAt i).2 0
          GLX_CONTEXT_CORE_PROFILE_BIT_ARB true st).st).events ++ rest) ∧
    (9 < i → ∃ more, createRequests (probeLoop w cfg true i st).events =
      coreAttribs (versionAt i).1 (versionAt i).2 ::
      coreAttribs (versionAt (i - 1)).1 (versionAt (i - 1)).2 :: more) ∧
    (i = 9 → (probeLoop w cfg true i st).val = none ∧
      createRequests (probeLoop w cfg true i st).events =
        [coreAttribs (versionAt i).1 (versionAt i).2]) := by
  obtain ⟨hval, hev⟩ := create_context_flags_nondirect w cfg (versionAt i).1 (versionAt i).2 0
    GLX_CONTEXT_CORE_PROFILE_BIT_ARB st c hf hc hd
  obtain ⟨_, _, hne⟩ := versionAt_probed i h8 h16
  have hreq := create_context_flags_createRequests w cfg (versionAt i).1 (versionAt i).2 0
    GLX_CONTEXT_CORE_PROFILE_BIT_ARB true st hf
  have hf2 := (create_context_flags_funcAvailable w cfg (versionAt i).1 (versionAt i).2 0
    GLX_CONTEXT_CORE_PROFILE_BIT_ARB true st).2 hf
  have hreq2 := create_context_flags_createRequests w cfg (versionAt (i - 1)).1
    (versionAt (i - 1)).2 0 GLX_CONTEXT_CORE_PROFILE_BIT_ARB true _ hf2
  obtain ⟨j, rfl⟩ : ∃ j, i = j + 1 := ⟨i - 1, by omega⟩
  simp only [Nat.add_sub_cancel] at hreq2 ⊢
  have hstep : (probeLoop w cfg true (j + 1) st).events =
      [Event.printf "Try to create a context for version %u.%u\n"
        [PrintfArg.int (versionAt (j + 1)).1, PrintfArg.int (versionAt (j + 1)).2]] ++
      (create_context_flags w cfg (versionAt (j + 1)).1 (versionAt (j + 1)).2 0
        GLX_CONTEXT_CORE_PROFILE_BIT_ARB true st).events ++
      (probeLoop w cfg true j (create_context_flags w cfg (versionAt (j + 1)).1
        (versionAt (j + 1)).2 0 GLX_CONTEXT_CORE_PROFILE_BIT_ARB true st).st).events := by
    rw [probeLoop]
    simp only [hne, if_false, hval]
  have hstepv : (probeLoop w cfg true (j + 1) st).val =
      (probeLoop w cfg true j (create_context_flags w cfg (versionAt (j + 1)).1
        (versionAt (j + 1)).2 0 GLX_CONTEXT_CORE_PROFILE_BIT_ARB true st).st).val := by
    rw [probeLoop]
    simp only [hne, if_false, hval]
  refine ⟨?_, ?_, ?_⟩
  · intro h9
    obtain ⟨rest, hrest⟩ := probeLoop_starts_with_attempt w cfg true j (by omega) (by omega)
      (create_context_flags w cfg (versionAt (j + 1)).1 (versionAt (j + 1)).2 0
        GLX_CONTEXT_CORE_PROFILE_BIT_ARB true st).st
    refine ⟨rest, ?_⟩
    rw [hstep, hrest]
    simp only [List.append_assoc]
  · intro h9
    obtain ⟨rest, hrest⟩ := probeLoop_starts_with_attempt w cfg true j (by omega) (by omega)
      (create_context_flags w cfg (versionAt (j + 1)).1 (versionAt (j + 1)).2 0
        GLX_CONTEXT_CORE_PROFILE_BIT_ARB true st).st
    refine ⟨createRequests rest, ?_⟩
    rw [hstep, hrest]
    simp only [createRequests_append, hreq, hreq2]
    rfl
  · intro h9
    have hj : j = 8 := by omega
    subst hj
    have h8e : ∀ s, probeLoop w cfg true 8 s = ⟨none, s, []⟩ := by
      intro s
      rw [probeLoop]
      have hv : (versionAt (7 + 1)).1 = 3 ∧ (versionAt (7 + 1)).2 = 0 := by decide
      simp only [hv, and_self, if_true]
    rw [hstepv, hstep, h8e]
    refine ⟨rfl, ?_⟩
    simp only [createRequests_append, hreq]
    rfl

/-! ## Claims settled by evaluation at a concrete service -/

/-- C9: `extension_supported` does not answer whether the extension is in the
list.  The name `GLX_ARB_create_context` is one of the names of the list
`GLX_ARB_create_context_profile GLX_ARB_create_context`, yet
`extension_supported` returns 0, because only the first occurrence found by
`strstr` is examined; and `ARB_create_context` is not a name of the list
`GLX_ARB_create_context`, yet `extension_supported` returns 1, because the
character before the occurrence is never examined. -/
theorem extension_supported_first_occurrence_only :
    ("GLX_ARB_create_context".toList ∈
        splitNames "GLX_ARB_create_context_profile GLX_ARB_create_context".toList ∧
      extension_supported "GLX_ARB_create_context".toList
        "GLX_ARB_create_context_profile GLX_ARB_create_context".toList = 0) ∧
    ("ARB_create_context".toList ∉ splitNames "GLX_ARB_create_context".toList ∧
      extension_supported "ARB_create_context".toList "GLX_ARB_create_context".toList = 1) := by
  decide

/-- C10: when the creation call returns a null context and a direct context
was requested, `create_context_flags` calls `glXIsDirect` and then
`glXDestroyContext` with the null context; and when the creation call returns
context 5 while the X error handler fires, the function returns null and the
trace holds no `glXDestroyContext` of context 5. -/
theorem create_context_flags_queries_null_context :
    (create_context_flags worldNoCore 7 4 4 0 GLX_CONTEXT_CORE_PROFILE_BIT_ARB true
        Statics.init).events =
      [Event.glXQueryExtensionsString, Event.glXGetProcAddress true, Event.XSetErrorHandler,
       Event.glXCreateContextAttribsARB 7 (coreAttribs 4 4) true none, Event.XSetErrorHandler,
       Event.glXIsDirect none false, Event.glXDestroyContext none] ∧
    (create_context_flags worldXError 7 4 4 0 GLX_CONTEXT_CORE_PROFILE_BIT_ARB true
        Statics.init).val = none ∧
    acquireCount (create_context_flags worldXError 7 4 4 0 GLX_CONTEXT_CORE_PROFILE_BIT_ARB true
        Statics.init).events (Resource.context 5) = 1 ∧
    releaseCount (create_context_flags worldXError 7 4 4 0 GLX_CONTEXT_CORE_PROFILE_BIT_ARB true
        Statics.init).events (Resource.context 5) = 0 := by
  decide

/-- C2: on the path where a context was created but no visual info is
obtained, `main` returns with the context never destroyed: context 44 is
acquired once and released zero times in the trace of `main`. -/
theorem context_leaks_when_no_visual :
    worldNoVisual.glXGetVisualFromFBConfig 7 = none ∧
    (main worldNoVisual).val = 0 ∧
    acquireCount (main worldNoVisual).events (Resource.context 44) = 1 ∧
    releaseCount (main worldNoVisual).events (Resource.context 44) = 0 := by
  decide

/-- C5: when a context and a visual were obtained and `glXMakeCurrent` fails,
`print_version` releases the context, the visual and the window without
querying the version string, and returns True, not False. -/
theorem bind_failure_returns_true :
    (print_version worldBindFails true true Statics.init).val = true ∧
    Event.glXMakeCurrent 400 44 false ∈
      (print_version worldBindFails true true Statics.init).events ∧
    Event.glGetString ∉ (print_version worldBindFails true true Statics.init).events ∧
    releaseCount (print_version worldBindFails true true Statics.init).events
      (Resource.context 44) = 1 ∧
    releaseCount (print_version worldBindFails true true Statics.init).events
      (Resource.memory 300) = 1 ∧
    releaseCount (print_version worldBindFails true true Statics.init).events
      (Resource.window 400) = 1 := by
  decide

/-- C6 (counterexample): creation at 3.1 gives a context that is not direct
and the driver would create a direct context at the next lower listed version
3.0; the probe does not continue with 3.0: it returns null and its creation
requests are 4.4 down to 3.1, with none for 3.0. -/
theorem nondirect_at_3_1_stops_probe :
    (8 < 9 ∧ 9 ≤ 16 ∧ versionAt 9 = (3, 1) ∧ versionAt (9 - 1) = (3, 0) ∧
      funcAvailable worldNonDirect31 Statics.init ∧
      worldNonDirect31.glXCreateContextAttribsARB 7 (coreAttribs 3 1) true = ⟨some 31, false⟩ ∧
      worldNonDirect31.glXIsDirect (some 31) = false) ∧
    (worldNonDirect31.glXCreateContextAttribsARB 7 (coreAttribs 3 0) true = ⟨some 30, false⟩ ∧
      worldNonDirect31.glXIsDirect (some 30) = true) ∧
    (create_context_with_config worldNonDirect31 7 true true Statics.init).val = none ∧
    coreAttribs 3 0 ∉
      createRequests (create_context_with_config worldNonDirect31 7 true true Statics.init).events ∧
    createRequests (create_context_with_config worldNonDirect31 7 true true Statics.init).events =
      [coreAttribs 4 4, coreAttribs 4 3, coreAttribs 4 2, coreAttribs 4 1, coreAttribs 4 0,
       coreAttribs 3 3, coreAttribs 3 2, coreAttribs 3 1] := by
  decide

/-- C3 (counterexample): with both a single-buffered and a double-buffered
configuration available, `choose_fb_config` makes one request, the
single-buffered one, and returns the single-buffered list, not the
double-buffered one. -/
theorem choose_fb_config_not_double_first :
    worldFull.glXChooseFBConfig fbAttribDouble = some ⟨200, 8, []⟩ ∧
    (choose_fb_config worldFull Statics.init).val ≠ some ⟨200, 8, []⟩ ∧
    (choose_fb_config worldFull Statics.init).events =
      [Event.glXChooseFBConfig fbAttribSingle (some ⟨100, 7, []⟩)] := by
  decide

/-- C7 (counterexample): on the full-success path the context is destroyed
before the window, not after it. -/
theorem context_destroyed_before_window :
    (main worldFull).events.indexOf (Event.glXDestroyContext (some 44)) <
      (main worldFull).events.indexOf (Event.XDestroyWindow 400) ∧
    (main worldFull).events.indexOf (Event.XDestroyWindow 400) <
      (main worldFull).events.length := by
  decide

/-! ## Claims proved for every service -/

/-- C3 (amended): `choose_fb_config` first asks the service for a
single-buffered RGBA configuration and returns that list whenever it is
non-null; it asks for a double-buffered configuration exactly when the
single-buffered request yields nothing, and returns null exactly when both
requests yield nothing. -/
theorem choose_fb_config_single_first (w : World) (st : Statics) :
    (choose_fb_config w st).events.head? =
      some (Event.glXChooseFBConfig fbAttribSingle (w.glXChooseFBConfig fbAttribSingle)) ∧
    (choose_fb_config w st).val =
      (match w.glXChooseFBConfig fbAttribSingle with
       | some l => some l
       | none => w.glXChooseFBConfig fbAttribDouble) ∧
    (Event.glXChooseFBConfig fbAttribDouble (w.glXChooseFBConfig fbAttribDouble) ∈
        (choose_fb_config w st).events ↔ w.glXChooseFBConfig fbAttribSingle = none) ∧
    ((choose_fb_config w st).val = none ↔
      w.glXChooseFBConfig fbAttribSingle = none ∧ w.glXChooseFBConfig fbAttribDouble = none) := by
  unfold choose_fb_config
  have hne : fbAttribDouble ≠ fbAttribSingle := by decide
  cases h : w.glXChooseFBConfig fbAttribSingle <;> simp [hne]

/-- C4: `main` returns -1 if and only if `XOpenDisplay` fails and returns 0 in
every other case, whatever the other external calls answer; the exit code is a
function of the outcome of `XOpenDisplay` alone, so the result of
`print_version` does not influence it. -/
theorem main_exit_code (w : World) :
    ((main w).val = -1 ↔ w.XOpenDisplay = false) ∧
    ((main w).val = 0 ↔ w.XOpenDisplay = true) ∧
    (main w).val = (if w.XOpenDisplay = true then 0 else -1) := by
  unfold main
  cases h : w.XOpenDisplay <;> simp

/-- C6 (amended): in a probe run with `direct = true`, when the creation call
at the listed version of index `i` (above the 3.0 entry) returns a context `c`
without an X error and `glXIsDirect` says `c` is not direct,
`create_context_flags` returns null after destroying `c` exactly once, the
loop of `create_context_with_config` goes on from the table index `i - 1`
exactly as after a failed attempt, and `create_context_with_config` never
returns `c`.  When the next lower listed version is above 3.0 (`9 < i`), the
loop continues with it: its next calls are the attempt at that version, and
the creation request after the one for `i` is the one for `i - 1`.  When the
next lower listed version is 3.0 (`i = 9`, the attempt was at 3.1), the loop
returns null and makes no further creation request. -/
theorem nondirect_attempt_counts_as_failed (w : World) (cfg : Nat) (st : Statics) (i c : Nat)
    (h8 : 8 < i) (h16 : i ≤ 16) (hf : funcAvailable w st)
    (hc : w.glXCreateContextAttribsARB cfg (coreAttribs (versionAt i).1 (versionAt i).2) true =
      ⟨some c, false⟩)
    (hd : w.glXIsDirect (some c) = false) :
    (create_context_flags w cfg (versionAt i).1 (versionAt i).2 0
      GLX_CONTEXT_CORE_PROFILE_BIT_ARB true st).val = none ∧
    (create_context_flags w cfg (versionAt i).1 (versionAt i).2 0
      GLX_CONTEXT_CORE_PROFILE_BIT_ARB true st).events =
        (firstCallBlock w st).2 ++
        [Event.XSetErrorHandler,
         Event.glXCreateContextAttribsARB cfg (coreAttribs (versionAt i).1 (versionAt i).2) true
           (some c),
         Event.XSetErrorHandler, Event.glXIsDirect (some c) false,
         Event.glXDestroyContext (some c)] ∧
    releaseCount (create_context_flags w cfg (versionAt i).1 (versionAt i).2 0
      GLX_CONTEXT_CORE_PROFILE_BIT_ARB true st).events (Resource.context c) = 1 ∧
    (probeLoop w cfg true i st).val =
      (probeLoop w cfg true (i - 1) (create_context_flags w cfg (versionAt i).1 (versionAt i).2 0
        GLX_CONTEXT_CORE_PROFILE_BIT_ARB true st).st).val ∧
    (probeLoop w cfg true i st).events =
      [Event.printf "Try to create a context for version %u.%u\n"
        [PrintfArg.int (versionAt i).1, PrintfArg.int (versionAt i).2]] ++
      (create_context_flags w cfg (versionAt i).1 (versionAt i).2 0
        GLX_CONTEXT_CORE_PROFILE_BIT_ARB true st).events ++
      (probeLoop w cfg true (i - 1) (create_context_flags w cfg (versionAt i).1 (versionAt i).2 0
        GLX_CONTEXT_CORE_PROFILE_BIT_ARB true st).st).events ∧
    (∀ st0, (create_context_with_config w cfg true true st0).val ≠ some c) ∧
    (9 < i → ∃ rest, (probeLoop w cfg true i st).events =
      [Event.printf "Try to create a context for version %u.%u\n"
        [PrintfArg.int (versionAt i).1, PrintfArg.int (versionAt i).2]] ++
      (create_context_flags w cfg (versionAt i).1 (versionAt i).2 0
        GLX_CONTEXT_CORE_PROFILE_BIT_ARB true st).events ++
      [Event.printf "Try to create a context for version %u.%u\n"
        [PrintfArg.int (versionAt (i - 1)).1, PrintfArg.int (versionAt (i - 1)).2]] ++
      (create_context_flags w cfg (versionAt (i - 1)).1 (versionAt (i - 1)).2 0
        GLX_CONTEXT_CORE_PROFILE_BIT_ARB true
        (create_context_flags w cfg (versionAt i).1 (versionAt i).2 0
          GLX_CONTEXT_CORE_PROFILE_BIT_ARB true st).st).events ++ rest) ∧
    (9 < i → ∃ more, createRequests (probeLoop w cfg true i st).events =
      coreAttribs (versionAt i).1 (versionAt i).2 ::
      coreAttribs (versionAt (i - 1)).1 (versionAt (i - 1)).2 :: more) ∧
    (i = 9 → (probeLoop w cfg true i st).val = none ∧
      createRequests (probeLoop w cfg true i st).events =
        [coreAttribs (versionAt i).1 (versionAt i).2]) := by
  obtain ⟨hval, hev⟩ := create_context_flags_nondirect w cfg (versionAt i).1 (versionAt i).2 0
    GLX_CONTEXT_CORE_PROFILE_BIT_ARB st c hf hc hd
  obtain ⟨_, _, hne⟩ := versionAt_probed i h8 h16
  refine ⟨hval, hev, ?_, ?_, ?_, ?_, nondirect_attempt_next_step w cfg st i c h8 h16 hf hc hd⟩
  · rw [hev]
    have h0 := firstCallBlock_releaseCount w st (Resource.context c)
    unfold releaseCount at h0 ⊢
    rw [List.countP_append, h0]
    simp [Event.releases]
  · obtain ⟨j, rfl⟩ : ∃ j, i = j + 1 := ⟨i - 1, by omega⟩
    rw [probeLoop]
    simp only [hne, if_false, hval, Nat.add_sub_cancel]
  · obtain ⟨j, rfl⟩ : ∃ j, i = j + 1 := ⟨i - 1, by omega⟩
    rw [probeLoop]
    simp only [hne, if_false, hval, Nat.add_sub_cancel]
  · intro st0 hsome
    unfold create_context_with_config at hsome
    simp only [if_true] at hsome
    have := (probeLoop_some w cfg true c _ st0 hsome).1 rfl
    rw [hd] at this
    exact Bool.false_ne_true this

/-- C6 (witness): creation at 4.4 gives context 44, which is not direct; the
probe continues with 4.3 and returns the context 43 created there.  With a
non-direct context at 3.1, the loop started at the 3.1 entry returns null
after that single request. -/
theorem nondirect_attempt_counts_as_failed_witness :
    (8 < 16 ∧ 16 ≤ 16 ∧ 9 < 16 ∧ funcAvailable worldNonDirect44 Statics.init ∧
      worldNonDirect44.glXCreateContextAttribsARB 7
        (coreAttribs (versionAt 16).1 (versionAt 16).2) true = ⟨some 44, false⟩ ∧
      worldNonDirect44.glXIsDirect (some 44) = false) ∧
    (create_context_flags worldNonDirect44 7 (versionAt 16).1 (versionAt 16).2 0
      GLX_CONTEXT_CORE_PROFILE_BIT_ARB true Statics.init).val = none ∧
    (probeLoop worldNonDirect44 7 true 16 Statics.init).val =
      (probeLoop worldNonDirect44 7 true (16 - 1)
        (create_context_flags worldNonDirect44 7 (versionAt 16).1 (versionAt 16).2 0
          GLX_CONTEXT_CORE_PROFILE_BIT_ARB true Statics.init).st).val ∧
    (create_context_with_config worldNonDirect44 7 true true Statics.init).val ≠ some 44 ∧
    (∃ more, createRequests (probeLoop worldNonDirect44 7 true 16 Statics.init).events =
      coreAttribs (versionAt 16).1 (versionAt 16).2 ::
      coreAttribs (versionAt (16 - 1)).1 (versionAt (16 - 1)).2 :: more) ∧
    (create_context_with_config worldNonDirect44 7 true true Statics.init).val = some 43 ∧
    createRequests (create_context_with_config worldNonDirect44 7 true true Statics.init).events =
      [coreAttribs 4 4, coreAttribs 4 3] ∧
    ((probeLoop worldNonDirect31 7 true 9 Statics.init).val = none ∧
      createRequests (probeLoop worldNonDirect31 7 true 9 Statics.init).events =
        [coreAttribs (versionAt 9).1 (versionAt 9).2]) :=
  ⟨by decide,
    (nondirect_attempt_counts_as_failed worldNonDirect44 7 Statics.init 16 44
      (by decide) (by decide) (by decide) (by decide) (by decide)).1,
    (nondirect_attempt_counts_as_failed worldNonDirect44 7 Statics.init 16 44
      (by decide) (by decide) (by decide) (by decide) (by decide)).2.2.2.1,
    (nondirect_attempt_counts_as_failed worldNonDirect44 7 Statics.init 16 44
      (by decide) (by decide) (by decide) (by decide) (by decide)).2.2.2.2.2.1 Statics.init,
    (nondirect_attempt_counts_as_failed worldNonDirect44 7 Statics.init 16 44
      (by decide) (by decide) (by decide) (by decide) (by decide)).2.2.2.2.2.2.2.1 (by decide),
    by decide, by decide,
    (nondirect_attempt_counts_as_failed worldNonDirect31 7 Statics.init 9 31
      (by decide) (by decide) (by decide) (by decide) (by decide)).2.2.2.2.2.2.2.2 rfl⟩

/-- C7 (amended): on the full-success path and on the bind-failure path (a
configuration `l`, a context `c` and a visual `v` were obtained), the trace of
`main` opens the display, then creates the context, then creates the window,
and ends by destroying the context, freeing the visual, destroying the window
and closing the display, in that order: the context is destroyed before the
window, and the window before the display connection is closed. -/
theorem release_order_context_window_display (w : World) (l : FBConfigList) (c v : Nat)
    (hopen : w.XOpenDisplay = true)
    (hfb : (choose_fb_config w Statics.init).val = some l)
    (hctx : (create_context_with_config w l.first true true Statics.init).val = some c)
    (hvis : w.glXGetVisualFromFBConfig l.first = some v) :
    ∃ a pre mid rep,
      (main w).events =
        [Event.XOpenDisplay true] ++ pre ++
        [Event.glXCreateContextAttribsARB l.first a true (some c)] ++ mid ++
        [Event.XCreateColormap, Event.XCreateWindow w.XCreateWindow,
         Event.glXMakeCurrent w.XCreateWindow c (w.glXMakeCurrent w.XCreateWindow c)] ++ rep ++
        [Event.glXDestroyContext (some c), Event.XFree v,
         Event.XDestroyWindow w.XCreateWindow, Event.XSync, Event.XCloseDisplay] ∧
      ∀ e ∈ rep, e.acquires = none ∧ e.releases = none := by
  have hst := choose_fb_config_st w Statics.init
  have hsome : (probeLoop w l.first true (NUM_GL_VERSIONS - 2) Statics.init).val = some c := by
    simpa [create_context_with_config] using hctx
  obtain ⟨_, a, hmem⟩ := probeLoop_some w l.first true c _ _ hsome
  obtain ⟨s, t, hsplit⟩ := List.append_of_mem hmem
  refine ⟨a, (choose_fb_config w Statics.init).events ++ s,
    t ++ [Event.glXGetVisualFromFBConfig l.first (some v), Event.XFree l.ptr],
    (if w.glXMakeCurrent w.XCreateWindow c = true then
      [Event.glGetString] ++ CheckError w 336 ++
      [Event.printf "%s version string: %s\n"
        [PrintfArg.str "OpenGL core profile", PrintfArg.str w.glGetString]]
     else [Event.fprintf_stderr "Error: glXMakeCurrent failed\n" []]), ?_, ?_⟩
  · unfold main print_version
    simp only [hopen, hfb, hst, hvis, hctx, Bool.true_eq_false, if_false]
    unfold create_context_with_config bindAndReport
    simp only [if_true, hsplit]
    simp only [List.append_assoc, List.cons_append, List.nil_append]
  · unfold CheckError
    by_cases hb : w.glXMakeCurrent w.XCreateWindow c = true <;>
      by_cases hg : w.glGetError = 0 <;>
      simp [hb, hg, Event.acquires, Event.releases]


/-- C7 (witness): the full-success service. -/
theorem release_order_context_window_display_witness :
    worldFull.XOpenDisplay = true ∧
    (choose_fb_config worldFull Statics.init).val = some ⟨100, 7, []⟩ ∧
    (create_context_with_config worldFull 7 true true Statics.init).val = some 44 ∧
    worldFull.glXGetVisualFromFBConfig 7 = some 300 ∧
    ∃ a pre mid rep,
      (main worldFull).events =
        [Event.XOpenDisplay true] ++ pre ++
        [Event.glXCreateContextAttribsARB 7 a true (some 44)] ++ mid ++
        [Event.XCreateColormap, Event.XCreateWindow 400,
         Event.glXMakeCurrent 400 44 true] ++ rep ++
        [Event.glXDestroyContext (some 44), Event.XFree 300,
         Event.XDestroyWindow 400, Event.XSync, Event.XCloseDisplay] ∧
      ∀ e ∈ rep, e.acquires = none ∧ e.releases = none :=
  ⟨by decide, by decide, by decide, by decide,
    release_order_context_window_display worldFull ⟨100, 7, []⟩ 44 300
      (by decide) (by decide) (by decide) (by decide)⟩

/-- C8: when no core-profile context can be created at any listed version at
or above 3.0, `create_context_with_config` with `coreProfile = true` returns
null, never calls `glXCreateNewContext` and requests only listed versions at or
above 3.0; `print_version` then returns False without creating a window or
binding. -/
theorem no_fallback_to_non_profiled (w : World) (direct : Bool) (st : Statics)
    (hno : ∀ cfg, noCoreContext w cfg direct st) :
    (∀ cfg,
      (create_context_with_config w cfg true direct st).val = none ∧
      (∀ e ∈ (create_context_with_config w cfg true direct st).events,
        e.isCreateNewContext = false) ∧
      (∀ a ∈ createRequests (create_context_with_config w cfg true direct st).events,
        ∃ v ∈ gl_versions, atLeast30 v ∧ a = coreAttribs v.1 v.2)) ∧
    (print_version w direct true st).val = false ∧
    ∀ e ∈ (print_version w direct true st).events,
      e.isCreateNewContext = false ∧ e.isCreateWindow = false ∧ e.isMakeCurrent = false := by
  have hprobe : ∀ cfg, (create_context_with_config w cfg true direct st).val = none ∧
      (create_context_with_config w cfg true direct st).events.all
        (Event.probeCall probedVersion) = true := by
    intro cfg
    unfold create_context_with_config
    simp only [if_true]
    exact ⟨probeLoop_none w cfg direct _ (by decide) (by decide) st (hno cfg),
      probeLoop_events w cfg direct _ (by decide) (by decide) st⟩
  refine ⟨?_, ?_, ?_⟩
  · intro cfg
    obtain ⟨hval, hall⟩ := hprobe cfg
    rw [List.all_eq_true] at hall
    refine ⟨hval, fun e he => (probeCall_spec _ e (hall e he)).1, ?_⟩
    intro a ha
    obtain ⟨c, d, r, hmem⟩ := mem_createRequests _ a ha
    obtain ⟨v, hv, hlt, hav⟩ := (probeCall_spec _ _ (hall _ hmem)).2.2.2 c a d r rfl
    exact ⟨v, hv, Or.inr hlt, hav⟩
  · unfold print_version
    simp only [choose_fb_config_st]
    cases hfb : (choose_fb_config w st).val with
    | none => rfl
    | some l =>
      simp only [(hprobe l.first).1]
      cases w.glXGetVisualFromFBConfig l.first <;> rfl
  · have key : (print_version w direct true st).events.all
        (fun e => !e.isCreateNewContext && !e.isCreateWindow && !e.isMakeCurrent) = true := by
      have hfbe : (choose_fb_config w st).events.all
          (fun e => !e.isCreateNewContext && !e.isCreateWindow && !e.isMakeCurrent) = true := by
        rw [List.all_eq_true]
        intro e he
        obtain ⟨h1, h2, h3⟩ := choose_fb_config_events w st e he
        simp [h1, h2, h3]
      unfold print_version
      simp only [choose_fb_config_st]
      cases hfb : (choose_fb_config w st).val with
      | none =>
        simp only [List.all_append, hfbe, Bool.true_and]
        rfl
      | some l =>
        obtain ⟨hval, hall⟩ := hprobe l.first
        have hall2 : (create_context_with_config w l.first true direct st).events.all
            (fun e => !e.isCreateNewContext && !e.isCreateWindow && !e.isMakeCurrent) = true := by
          rw [List.all_eq_true] at hall ⊢
          intro e he
          obtain ⟨h1, h2, h3, _⟩ := probeCall_spec _ e (hall e he)
          simp [h1, h2, h3]
        simp only [hval]
        cases hvis : w.glXGetVisualFromFBConfig l.first <;>
          simp only [List.all_append, hfbe, hall2, Bool.true_and] <;> rfl
    intro e he
    have := List.all_eq_true.1 key e he
    simp only [Bool.and_eq_true, Bool.not_eq_true', and_assoc] at this
    exact this


/-- C8 (witness): the service whose creation call always returns null. -/
theorem no_fallback_to_non_profiled_witness :
    (∀ cfg, noCoreContext worldNoCore cfg true Statics.init) ∧
    (create_context_with_config worldNoCore 7 true true Statics.init).val = none ∧
    (print_version worldNoCore true true Statics.init).val = false :=
  have hno : ∀ cfg, noCoreContext worldNoCore cfg true Statics.init := by
    intro cfg v _ _ h
    obtain ⟨_, c, hc, _⟩ := h
    simp [worldNoCore, mkWorld] at hc
  ⟨hno, ((no_fallback_to_non_profiled worldNoCore true Statics.init hno).1 7).1,
    (no_fallback_to_non_profiled worldNoCore true Statics.init hno).2.1⟩

end GLVersion
